import Mathlib

/-!
Verification of the TrendProphet forecast orchestration pipeline
(`src/trend_prophet.py`) against its design specification.

The single source file is a Streamlit script.  Its core pipeline is
embedded shallowly below:

* `load_data` (lines 16-26): cached fetch of the full history; the
  external provider (`yfinance`) is a function parameter, any provider
  exception and an empty frame both collapse to `none`.
* the cache decorator `st.cache_data(ttl=3600)` (line 16) is modelled as
  an explicit, time-indexed state machine (`cachedLoadData`).
* `training_start` (line 60) and `filtered_df` (line 101): training
  window selection — the date-label slice `full_df.loc[str(training_start):]`
  on an ascending date index is a filter keeping points with
  `training_start ≤ date`, and `.copy()` makes the slice independent of
  the cached frame.
* the `len(filtered_df) > 20` gate (line 103), the Prophet fit
  (lines 106-109, modelled as an oracle parameter returning
  `Option (List ForecastRow)`, `none` standing for a fit exception that
  propagates out of the script), the statistical summary (lines 124-136)
  and the CSV export (lines 143-146), combined in `runForecastStage`.

Dates are day numbers (`Nat`); prices and predictions are exact
rationals (`ℚ`), mirroring the arithmetic structure of the float code.
-/

/-- A point of the cached price history: one row of `full_df`
restricted to the columns the core consumes (`Date`, `Close`). -/
structure PricePoint where
  date : Nat
  close : ℚ
deriving Repr, DecidableEq, Inhabited

/-- A raw provider row as returned by `t.history(period="max")`:
a timestamp (day number plus an optional timezone attached to it)
and the close price.  `load_data` strips the timezone
(`df.index = df.index.tz_localize(None)`, line 23). -/
structure RawRow where
  date : Nat
  tz : Option Int
  close : ℚ
deriving Repr, DecidableEq, Inhabited

/-- One row of the Prophet forecast output consumed downstream:
`(ds, yhat, yhat_lower, yhat_upper)`. -/
structure ForecastRow where
  ds : Nat
  yhat : ℚ
  yhat_lower : ℚ
  yhat_upper : ℚ
deriving Repr, DecidableEq, Inhabited

/-- The summary displayed in the Forecast tab (lines 124-136):
percent change, trend label, and the last-row confidence bounds. -/
structure SummaryStats where
  perc_change : ℚ
  trend_label : String
  lower_bound : ℚ
  upper_bound : ℚ
deriving Repr, DecidableEq, Inhabited

/-- `df.index = df.index.tz_localize(None)` on one row (line 23). -/
def stripTz (r : RawRow) : RawRow :=
  { r with tz := none }

/-- Lines 17-26.  `history` is the provider call `t.history(period="max")`,
taking the period string; `none` models any raised provider exception
(the bare `except Exception: return None`), `some rows` a returned frame.
An empty frame also yields `None`; otherwise the frame is returned with
timezone-naive timestamps. -/
def load_data (history : String → Option (List RawRow)) : Option (List RawRow) :=
  match history "max" with
  | none => none
  | some rows => if rows.isEmpty then none else some (rows.map stripTz)

/-- Line 16: the freshness window of `st.cache_data(ttl=3600)`, seconds. -/
def ttlSeconds : Nat := 3600

/-- One memoized entry of the data cache: the argument key (ticker),
the memoized return value of `load_data`, and the time it was stored. -/
structure CacheEntry where
  key : String
  value : Option (List RawRow)
  storedAt : Nat
deriving Repr, DecidableEq, Inhabited

/-- Whether a cache entry stored at `stored` is still fresh at `now`. -/
def cacheFresh (now stored : Nat) : Bool :=
  now - stored < ttlSeconds

/-- Modelled from the spec: the memoization semantics of the
`@st.cache_data(ttl=3600)` decorator on `load_data` (line 16), whose
implementation lives in the external UI framework, not in this
repository.  Per the spec (§4.1), a call whose ticker key has a fresh
entry returns the memoized value without querying the provider; a miss
or expired entry queries the provider (`provider ticker now`, time-indexed
since the external data may change) and stores the result.  Returns
`(value, new cache state, whether the provider was queried)`. -/
def cachedLoadData (provider : String → Nat → Option (List RawRow))
    (st : List CacheEntry) (ticker : String) (now : Nat) :
    Option (List RawRow) × List CacheEntry × Bool :=
  match st.find? (fun e => e.key == ticker && cacheFresh now e.storedAt) with
  | some e => (e.value, st, false)
  | none =>
      let v := provider ticker now
      (v, ⟨ticker, v, now⟩ :: st.filter (fun e => !(e.key == ticker)), true)

/-- Earliest date of the history (`full_df.index.min()`, line 42). -/
def earliestDate (s : List PricePoint) : Nat :=
  ((s.map PricePoint.date).min?).getD 0

/-- Latest date of the history (`full_df.index.max()`, line 43). -/
def latestDate (s : List PricePoint) : Nat :=
  ((s.map PricePoint.date).max?).getD 0

/-- `total_days = (latest_date - earliest_date).days` (line 44). -/
def total_days (s : List PricePoint) : Nat :=
  latestDate s - earliestDate s

/-- `training_start = earliest_date + timedelta(days=days_offset)` (line 60). -/
def training_start (earliest_date days_offset : Nat) : Nat :=
  earliest_date + days_offset

/-- `filtered_df = full_df.loc[str(training_start):].copy()` (line 101):
on the ascending date index this keeps exactly the rows with
date ≥ `training_start`, in order, as an independent copy. -/
def filterFrom (series : List PricePoint) (start_date : Nat) : List PricePoint :=
  series.filter (fun p => start_date ≤ p.date)

/-- `filtered_df.reset_index()[['Date','Close']].rename(...)` (line 104):
the Prophet input frame, `(ds, y)` pairs. -/
def toProphetInput (filtered : List PricePoint) : List (Nat × ℚ) :=
  filtered.map (fun p => (p.date, p.close))

/-- `start_pred = forecast['yhat'].iloc[-horizon]` (line 124).  For
`1 ≤ horizon ≤ total_rows` (always the case: the slider forces
`horizon ≥ 30` and the forecast spans the training rows plus `horizon`
future rows) the negative position `-horizon` is row index
`total_rows - horizon`. -/
def start_pred (forecast : List ForecastRow) (horizon : Nat) : ℚ :=
  ((forecast[forecast.length - horizon]?).getD default).yhat

/-- `end_pred = forecast['yhat'].iloc[-1]` (line 125): the final row. -/
def end_pred (forecast : List ForecastRow) : ℚ :=
  (forecast.getLast?.getD default).yhat

/-- `perc_change = ((end_pred - start_pred) / start_pred) * 100` (line 126),
computed unconditionally: the code guards neither against
`start_pred == 0` nor anything else. -/
def perc_change (forecast : List ForecastRow) (horizon : Nat) : ℚ :=
  ((end_pred forecast - start_pred forecast horizon) / start_pred forecast horizon) * 100

/-- `trend_label = "Bullish (Upward)" if perc_change > 0 else
"Bearish (Downward)"` (line 128). -/
def trend_label (forecast : List ForecastRow) (horizon : Nat) : String :=
  if perc_change forecast horizon > 0 then "Bullish (Upward)" else "Bearish (Downward)"

/-- The Statistical Summary of lines 124-136: percent change, trend
label, and the last row's `yhat_lower` / `yhat_upper` as the
conservative / optimistic estimates. -/
def summarize (forecast : List ForecastRow) (horizon : Nat) : SummaryStats :=
  { perc_change := perc_change forecast horizon
    trend_label := trend_label forecast horizon
    lower_bound := ((forecast.getLast?.getD default).yhat_lower)
    upper_bound := ((forecast.getLast?.getD default).yhat_upper) }

/-- `forecast_export = forecast[['ds','yhat','yhat_lower','yhat_upper']].tail(horizon)`
(line 143): the last `horizon` rows (all rows when fewer exist,
matching pandas `tail`). -/
def forecastExport (forecast : List ForecastRow) (horizon : Nat) : List ForecastRow :=
  forecast.drop (forecast.length - horizon)

/-- The header row of `forecast_export.to_csv(index=False)` (line 145):
the four column names, no row-index column. -/
def csvHeader : String := "ds,yhat,yhat_lower,yhat_upper"

/-- One CSV record: the four fields of a forecast row, comma-separated,
no row-index field. -/
def rowToCsv (r : ForecastRow) : String :=
  toString r.ds ++ "," ++ toString r.yhat ++ "," ++ toString r.yhat_lower
    ++ "," ++ toString r.yhat_upper

/-- The lines of `forecast_export.to_csv(index=False)` (line 145):
the header followed by one record per exported row. -/
def exportCsvLines (forecast : List ForecastRow) (horizon : Nat) : List String :=
  csvHeader :: (forecastExport forecast horizon).map rowToCsv

/-- The CSV artifact itself; `.encode('utf-8')` is the identity on this
Unicode string model. -/
def exportCsv (forecast : List ForecastRow) (horizon : Nat) : String :=
  String.intercalate "\n" (exportCsvLines forecast horizon)

/-- The observable outcome of one run of the analysis block.  The
constructors are the spec's error taxonomy (§7) plus success:
`insufficientData` is the `st.warning` branch (line 185), `fitFailure`
is a Prophet exception propagating uncaught out of the script
(lines 106-109 have no handler), `summarizationFailure` is the spec's
postulated degenerate-denominator outcome — the code has no path
producing it — and `success` carries the displayed summary and the
export rows. -/
inductive RunOutcome where
  | insufficientData
  | fitFailure
  | summarizationFailure
  | success (stats : SummaryStats) (exported : List ForecastRow)
deriving Repr, DecidableEq, Inhabited

/-- Whether an outcome is a successful summary-and-export. -/
def RunOutcome.isSuccess : RunOutcome → Bool
  | .success _ _ => true
  | _ => false

/-- Lines 101-185 from the gate on: if the filtered series has more than
20 points the Prophet oracle `fit` is invoked (second component `true`)
and, when it returns a forecast, the summary and export are produced
unconditionally; if the fit raises, the exception surfaces as
`fitFailure`; with 20 or fewer points the engine is never invoked and
the run ends in the insufficient-data warning. -/
def runForecastStage (fit : List (Nat × ℚ) → Option (List ForecastRow))
    (filtered : List PricePoint) (horizon : Nat) : RunOutcome × Bool :=
  if filtered.length > 20 then
    match fit (toProphetInput filtered) with
    | none => (RunOutcome.fitFailure, true)
    | some forecast =>
        (RunOutcome.success (summarize forecast horizon)
          (forecastExport forecast horizon), true)
  else
    (RunOutcome.insufficientData, false)

/-- The memoized `load_data` result held in the cache for a ticker. -/
def seriesInCache (st : List CacheEntry) (ticker : String) :
    Option (Option (List RawRow)) :=
  (st.find? (fun e => e.key == ticker)).map CacheEntry.value

/-- The whole analysis block (lines 99-185) with the cache state passed
explicitly: the run filters a copy of the full frame, gates, fits,
summarizes and exports, and performs no write to the cache — the
`.copy()` on line 101 keeps every downstream frame operation off the
cached object. -/
def runAnalysisBlock (fit : List (Nat × ℚ) → Option (List ForecastRow))
    (st : List CacheEntry) (full_df : List PricePoint)
    (start_date : Nat) (horizon : Nat) : RunOutcome × List CacheEntry :=
  ((runForecastStage fit (filterFrom full_df start_date) horizon).1, st)

/-! ### Concrete fixtures used by witnesses and counterexamples -/

/-- A 21-point history of constant close 100 on days 0..20. -/
def series21 : List PricePoint :=
  (List.range 21).map (fun i => ⟨i, 100⟩)

/-- A 51-row forecast (21 training rows + 30 horizon rows) whose
boundary prediction (row index 21) is exactly 0. -/
def degenerateForecast : List ForecastRow :=
  (List.range 51).map (fun i => ⟨i, if i = 21 then 0 else 1, 0, 2⟩)

/-- A Prophet oracle that returns `degenerateForecast` on any input. -/
def fitDegenerate : List (Nat × ℚ) → Option (List ForecastRow) :=
  fun _ => some degenerateForecast

/-- A Prophet oracle whose fit always raises (returns `none`). -/
def fitNone : List (Nat × ℚ) → Option (List ForecastRow) :=
  fun _ => none

/-! ### Projection helpers for the summary record -/

theorem summarize_trend_label_eq (forecast : List ForecastRow) (horizon : Nat) :
    (summarize forecast horizon).trend_label = trend_label forecast horizon := rfl

theorem summarize_perc_change_eq (forecast : List ForecastRow) (horizon : Nat) :
    (summarize forecast horizon).perc_change = perc_change forecast horizon := rfl

/-! ### C1 -/

/-- C1: for every fetched series and offset, a filtered training series
of 20 or fewer points halts the run with the insufficient-data outcome
and the forecast engine is never invoked, while 21 or more points
invoke the engine. -/
theorem gate_twenty_halts_twentyone_proceeds
    (fit : List (Nat × ℚ) → Option (List ForecastRow))
    (series : List PricePoint) (offset horizon : Nat) :
    ((filterFrom series (training_start (earliestDate series) offset)).length ≤ 20 →
      runForecastStage fit (filterFrom series (training_start (earliestDate series) offset)) horizon
        = (RunOutcome.insufficientData, false)) ∧
    (21 ≤ (filterFrom series (training_start (earliestDate series) offset)).length →
      (runForecastStage fit (filterFrom series (training_start (earliestDate series) offset)) horizon).2 = true ∧
      (runForecastStage fit (filterFrom series (training_start (earliestDate series) offset)) horizon).1
        ≠ RunOutcome.insufficientData) := by
  set flt := filterFrom series (training_start (earliestDate series) offset) with hflt
  constructor
  · intro h
    unfold runForecastStage
    rw [if_neg (by omega)]
  · intro h
    unfold runForecastStage
    rw [if_pos (by omega)]
    cases hfit : fit (toProphetInput flt) <;> simp

/-- Boundary instances for C1: with a 21-point constant series, offset 1
leaves exactly 20 points and the run halts without invoking the engine;
offset 0 leaves 21 points and the engine is invoked. -/
theorem gate_twenty_halts_twentyone_proceeds_witness :
    runForecastStage fitNone
        (filterFrom series21 (training_start (earliestDate series21) 1)) 90
      = (RunOutcome.insufficientData, false) ∧
    (runForecastStage fitNone
        (filterFrom series21 (training_start (earliestDate series21) 0)) 90).2 = true :=
  ⟨(gate_twenty_halts_twentyone_proceeds fitNone series21 1 90).1 (by decide),
   ((gate_twenty_halts_twentyone_proceeds fitNone series21 0 90).2 (by decide)).1⟩

/-! ### C2 -/

/-- C2: the summarizer reads `start_pred` from row index
`total_rows - horizon`, `end_pred` from the final row, and computes
`percent_change = (end_pred - start_pred) / start_pred * 100`, for a
nonzero `start_pred`. -/
theorem summarize_boundary_and_percent_change
    (forecast : List ForecastRow) (horizon : Nat) (r rl : ForecastRow)
    (hr : forecast[forecast.length - horizon]? = some r)
    (hl : forecast.getLast? = some rl)
    (h0 : r.yhat ≠ 0) :
    start_pred forecast horizon = r.yhat ∧
    end_pred forecast = rl.yhat ∧
    (summarize forecast horizon).perc_change
      = (rl.yhat - r.yhat) / r.yhat * 100 := by
  refine ⟨by simp [start_pred, hr], by simp [end_pred, hl], ?_⟩
  rw [summarize_perc_change_eq]
  simp [perc_change, start_pred, end_pred, hr, hl]

/-- C2 witness: on a concrete two-row forecast with horizon 1 the
boundary row is row index 1 and the percent change follows the formula. -/
theorem summarize_boundary_and_percent_change_witness :
    start_pred [⟨0, 10, 8, 12⟩, ⟨1, 20, 16, 24⟩] 1 = (20 : ℚ) ∧
    end_pred [⟨0, 10, 8, 12⟩, ⟨1, 20, 16, 24⟩] = (20 : ℚ) ∧
    (summarize [⟨0, 10, 8, 12⟩, ⟨1, 20, 16, 24⟩] 1).perc_change
      = ((20 : ℚ) - 20) / 20 * 100 :=
  summarize_boundary_and_percent_change
    [⟨0, 10, 8, 12⟩, ⟨1, 20, 16, 24⟩] 1 ⟨1, 20, 16, 24⟩ ⟨1, 20, 16, 24⟩
    (by decide) (by decide) (by decide)

/-! ### C3 -/

/-- C3: the trend label is Bullish exactly when the percent change is
strictly positive, and a percent change of zero is labelled Bearish. -/
theorem trend_label_bullish_iff_positive
    (forecast : List ForecastRow) (horizon : Nat) :
    ((summarize forecast horizon).trend_label = "Bullish (Upward)" ↔
      0 < (summarize forecast horizon).perc_change) ∧
    ((summarize forecast horizon).perc_change = 0 →
      (summarize forecast horizon).trend_label = "Bearish (Downward)") := by
  rw [summarize_trend_label_eq, summarize_perc_change_eq]
  constructor
  · by_cases h : perc_change forecast horizon > 0
    · rw [trend_label, if_pos h]
      exact iff_of_true rfl h
    · rw [trend_label, if_neg h]
      exact iff_of_false (by decide) h
  · intro h
    rw [trend_label, if_neg (by rw [h]; exact lt_irrefl 0)]

/-- C3 witness: a flat two-row forecast gives percent change 0 and the
Bearish label. -/
theorem trend_label_bullish_iff_positive_witness :
    ((summarize [⟨0, 1, 0, 2⟩, ⟨1, 1, 0, 2⟩] 1).trend_label = "Bullish (Upward)" ↔
      0 < (summarize [⟨0, 1, 0, 2⟩, ⟨1, 1, 0, 2⟩] 1).perc_change) ∧
    (summarize [⟨0, 1, 0, 2⟩, ⟨1, 1, 0, 2⟩] 1).trend_label = "Bearish (Downward)" :=
  ⟨(trend_label_bullish_iff_positive [⟨0, 1, 0, 2⟩, ⟨1, 1, 0, 2⟩] 1).1,
   (trend_label_bullish_iff_positive [⟨0, 1, 0, 2⟩, ⟨1, 1, 0, 2⟩] 1).2 (by
    rw [summarize_perc_change_eq]
    unfold perc_change
    have hs : start_pred [⟨0, 1, 0, 2⟩, ⟨1, 1, 0, 2⟩] 1 = 1 := by decide
    have he : end_pred [⟨0, 1, 0, 2⟩, ⟨1, 1, 0, 2⟩] = 1 := by decide
    rw [hs, he]
    norm_num)⟩

/-! ### C4 -/

/-- C4 counterexample: a forecast whose boundary prediction is exactly 0
reaches the summarizer and the run still ends in a numeric success
outcome — no Summarization-Failure is signalled anywhere. -/
theorem start_pred_zero_numeric_result_cex :
    start_pred degenerateForecast 30 = 0 ∧
    (runForecastStage fitDegenerate series21 30).1.isSuccess = true ∧
    (runForecastStage fitDegenerate series21 30).1 ≠ RunOutcome.summarizationFailure := by
  decide

/-- C4 amended: when the fit succeeds on a more-than-20-point series and
the boundary prediction `start_pred` is 0, the pipeline does not signal
any Summarization-Failure outcome — the division is unguarded and the
run produces the numeric summary and export unconditionally. -/
theorem unguarded_division_no_summarization_failure
    (fit : List (Nat × ℚ) → Option (List ForecastRow))
    (filtered : List PricePoint) (horizon : Nat) (forecast : List ForecastRow)
    (hlen : 20 < filtered.length)
    (hfit : fit (toProphetInput filtered) = some forecast)
    (h0 : start_pred forecast horizon = 0) :
    (runForecastStage fit filtered horizon).1
      = RunOutcome.success (summarize forecast horizon) (forecastExport forecast horizon) ∧
    (runForecastStage fit filtered horizon).1 ≠ RunOutcome.summarizationFailure := by
  have hrun : runForecastStage fit filtered horizon
      = (RunOutcome.success (summarize forecast horizon)
          (forecastExport forecast horizon), true) := by
    unfold runForecastStage
    rw [if_pos hlen, hfit]
  rw [hrun]
  exact ⟨rfl, by simp⟩

/-- C4 witness: the amended statement instantiated on the degenerate
zero-boundary forecast. -/
theorem unguarded_division_no_summarization_failure_witness :
    (runForecastStage fitDegenerate series21 30).1
      = RunOutcome.success (summarize degenerateForecast 30)
          (forecastExport degenerateForecast 30) ∧
    (runForecastStage fitDegenerate series21 30).1 ≠ RunOutcome.summarizationFailure :=
  unguarded_division_no_summarization_failure fitDegenerate series21 30 degenerateForecast
    (by decide) rfl (by decide)

/-! ### C5 -/

/-- C5: when the fit fails on a series of more than 20 points, the run
surfaces the fit failure (the propagated exception), an outcome distinct
from the insufficient-data warning. -/
theorem fit_failure_distinct_from_insufficient_data
    (fit : List (Nat × ℚ) → Option (List ForecastRow))
    (filtered : List PricePoint) (horizon : Nat)
    (hlen : 20 < filtered.length)
    (hfit : fit (toProphetInput filtered) = none) :
    (runForecastStage fit filtered horizon).1 = RunOutcome.fitFailure ∧
    RunOutcome.fitFailure ≠ RunOutcome.insufficientData := by
  have hrun : runForecastStage fit filtered horizon = (RunOutcome.fitFailure, true) := by
    unfold runForecastStage
    rw [if_pos hlen, hfit]
  rw [hrun]
  exact ⟨rfl, by simp⟩

/-- C5 witness: an always-failing fit on the 21-point all-identical
series (the spec's degenerate example, above the 20-point threshold). -/
theorem fit_failure_distinct_from_insufficient_data_witness :
    (runForecastStage fitNone series21 30).1 = RunOutcome.fitFailure ∧
    RunOutcome.fitFailure ≠ RunOutcome.insufficientData :=
  fit_failure_distinct_from_insufficient_data fitNone series21 30 (by decide) rfl

/-! ### C6 -/

/-- C6: with at least `horizon` forecast rows, the export is exactly the
last `horizon` rows (the rest of the forecast is the prefix before
them), its row count equals `horizon`, the bound invariant transfers
from the forecast to every exported row, and the CSV is a header line
followed by one record per exported row. -/
theorem forecast_export_spec (forecast : List ForecastRow) (horizon : Nat)
    (h : horizon ≤ forecast.length) :
    (forecastExport forecast horizon).length = horizon ∧
    forecast = forecast.take (forecast.length - horizon) ++ forecastExport forecast horizon ∧
    ((∀ r ∈ forecast, r.yhat_lower ≤ r.yhat ∧ r.yhat ≤ r.yhat_upper) →
      ∀ r ∈ forecastExport forecast horizon,
        r.yhat_lower ≤ r.yhat ∧ r.yhat ≤ r.yhat_upper) ∧
    (exportCsvLines forecast horizon).length = horizon + 1 ∧
    (exportCsvLines forecast horizon).head? = some csvHeader := by
  refine ⟨?_, ?_, ?_, ?_, ?_⟩
  · simp only [forecastExport, List.length_drop]
    omega
  · exact (List.take_append_drop _ _).symm
  · intro hb r hr
    exact hb r (List.mem_of_mem_drop hr)
  · simp only [exportCsvLines, List.length_cons, List.length_map, forecastExport,
      List.length_drop]
    omega
  · rfl

/-- A three-row forecast used to instantiate the export properties. -/
def forecastTriple : List ForecastRow :=
  [⟨0, 1, 0, 2⟩, ⟨1, 1, 0, 2⟩, ⟨2, 1, 0, 2⟩]

/-- C6 witness: the export of the three-row forecast at horizon 2. -/
theorem forecast_export_spec_witness :
    (forecastExport forecastTriple 2).length = 2 ∧
    forecastTriple
      = forecastTriple.take (forecastTriple.length - 2) ++ forecastExport forecastTriple 2 ∧
    ((∀ r ∈ forecastTriple, r.yhat_lower ≤ r.yhat ∧ r.yhat ≤ r.yhat_upper) →
      ∀ r ∈ forecastExport forecastTriple 2,
        r.yhat_lower ≤ r.yhat ∧ r.yhat ≤ r.yhat_upper) ∧
    (exportCsvLines forecastTriple 2).length = 2 + 1 ∧
    (exportCsvLines forecastTriple 2).head? = some csvHeader :=
  forecast_export_spec forecastTriple 2 (by decide)

/-! ### C7 -/

/-- Filtering with a stronger predicate keeps at most as many elements. -/
theorem length_filter_mono_of_imp {α : Type} (p q : α → Bool) (l : List α)
    (himp : ∀ a, p a = true → q a = true) :
    (l.filter p).length ≤ (l.filter q).length := by
  induction l with
  | nil => exact Nat.le_refl 0
  | cons x xs ih =>
    simp only [List.filter_cons]
    by_cases hp : p x = true
    · rw [if_pos hp, if_pos (himp x hp)]
      simpa using ih
    · rw [if_neg hp]
      by_cases hq : q x = true
      · rw [if_pos hq]
        exact Nat.le_succ_of_le ih
      · rw [if_neg hq]
        exact ih

/-- C7: on a date-sorted history spanning at least 51 days, with offsets
in the slider range, the training filter keeps exactly the points dated
on or after `earliest + offset`, in ascending order; in particular the
first remaining date is at least `earliest + offset`, and a larger
offset never yields a longer filtered series. -/
theorem training_window_filter_spec
    (series : List PricePoint) (offset offset' : Nat)
    (hsorted : series.Pairwise (fun a b => a.date < b.date))
    (hspan : 51 ≤ total_days series)
    (hoff : offset ≤ total_days series - 30)
    (hoff' : offset' ≤ total_days series - 30)
    (hle : offset ≤ offset') :
    (∀ p ∈ filterFrom series (training_start (earliestDate series) offset),
      training_start (earliestDate series) offset ≤ p.date) ∧
    (filterFrom series (training_start (earliestDate series) offset)).Pairwise
      (fun a b => a.date < b.date) ∧
    (∀ p, (filterFrom series (training_start (earliestDate series) offset)).head? = some p →
      training_start (earliestDate series) offset ≤ p.date) ∧
    (filterFrom series (training_start (earliestDate series) offset')).length ≤
      (filterFrom series (training_start (earliestDate series) offset)).length := by
  have hmem : ∀ p ∈ filterFrom series (training_start (earliestDate series) offset),
      training_start (earliestDate series) offset ≤ p.date := by
    intro p hp
    have := (List.mem_filter.mp hp).2
    simpa using this
  refine ⟨hmem, ?_, ?_, ?_⟩
  · exact List.Pairwise.sublist (List.filter_sublist _) hsorted
  · intro p hp
    exact hmem p (List.mem_of_mem_head? hp)
  · apply length_filter_mono_of_imp
    intro a ha
    simp only [decide_eq_true_eq] at ha ⊢
    simp only [training_start] at ha ⊢
    omega

/-- A two-point history spanning 60 days, used with offsets 0 and 30. -/
def seriesSpan : List PricePoint := [⟨0, 100⟩, ⟨60, 110⟩]

/-- C7 witness: the filter properties instantiated on the 60-day-span
history with offsets 0 ≤ 30, both within the slider range. -/
theorem training_window_filter_spec_witness :
    (∀ p ∈ filterFrom seriesSpan (training_start (earliestDate seriesSpan) 0),
      training_start (earliestDate seriesSpan) 0 ≤ p.date) ∧
    (filterFrom seriesSpan (training_start (earliestDate seriesSpan) 0)).Pairwise
      (fun a b => a.date < b.date) ∧
    (∀ p, (filterFrom seriesSpan (training_start (earliestDate seriesSpan) 0)).head? = some p →
      training_start (earliestDate seriesSpan) 0 ≤ p.date) ∧
    (filterFrom seriesSpan (training_start (earliestDate seriesSpan) 30)).length ≤
      (filterFrom seriesSpan (training_start (earliestDate seriesSpan) 0)).length :=
  training_window_filter_spec seriesSpan 0 30
    (by decide) (by decide) (by decide) (by decide) (by decide)

/-! ### C8 -/

/-- C8: the fetch returns `none` whenever the provider raises or returns
no rows — both failure modes collapse into the single empty signal —
and on success it returns the provider's maximum-range rows with every
timestamp made timezone-naive. -/
theorem load_data_collapses_failures (history : String → Option (List RawRow)) :
    (history "max" = none → load_data history = none) ∧
    (history "max" = some [] → load_data history = none) ∧
    (∀ rows, history "max" = some rows → rows ≠ [] →
      load_data history = some (rows.map stripTz) ∧
      ∀ r ∈ rows.map stripTz, r.tz = none) := by
  refine ⟨?_, ?_, ?_⟩
  · intro h
    simp [load_data, h]
  · intro h
    simp [load_data, h]
  · intro rows h hne
    constructor
    · cases rows with
      | nil => exact absurd rfl hne
      | cons a as => simp [load_data, h]
    · intro r hr
      simp only [List.mem_map] at hr
      obtain ⟨a, _, rfl⟩ := hr
      rfl

/-- A provider row carrying a timezone, for the fetch witnesses. -/
def providerRow : RawRow := ⟨0, some 3, 100⟩

/-- A provider whose call succeeds with one timezone-aware row. -/
def historyOk : String → Option (List RawRow) := fun _ => some [providerRow]

/-- A provider whose call raises. -/
def historyErr : String → Option (List RawRow) := fun _ => none

/-- A provider whose call returns an empty frame. -/
def historyEmpty : String → Option (List RawRow) := fun _ => some []

/-- C8 witness: a raising provider and an empty provider both yield the
empty signal; a successful provider yields the rows timezone-naive. -/
theorem load_data_collapses_failures_witness :
    load_data historyErr = none ∧
    load_data historyEmpty = none ∧
    (load_data historyOk = some ([providerRow].map stripTz) ∧
      ∀ r ∈ [providerRow].map stripTz, r.tz = none) :=
  ⟨(load_data_collapses_failures historyErr).1 rfl,
   (load_data_collapses_failures historyEmpty).2.1 rfl,
   (load_data_collapses_failures historyOk).2.2 [providerRow] rfl
     (List.cons_ne_nil _ _)⟩

/-! ### C9 -/

/-- C9: starting from a cold cache, the first fetch queries the
provider; a second fetch of the same ticker within the 3600-second
window returns the very value fetched first, leaves the cache untouched
and does not query the provider; once the window has elapsed, the next
fetch queries the provider again. -/
theorem cache_freshness_spec
    (provider : String → Nat → Option (List RawRow))
    (ticker : String) (t0 t1 t2 : Nat)
    (h01 : t0 ≤ t1) (hfresh : t1 - t0 < ttlSeconds) (hexp : t0 + ttlSeconds ≤ t2) :
    (cachedLoadData provider [] ticker t0).2.2 = true ∧
    (cachedLoadData provider (cachedLoadData provider [] ticker t0).2.1 ticker t1).1
      = (cachedLoadData provider [] ticker t0).1 ∧
    (cachedLoadData provider (cachedLoadData provider [] ticker t0).2.1 ticker t1).2.2
      = false ∧
    (cachedLoadData provider (cachedLoadData provider [] ticker t0).2.1 ticker t1).2.1
      = (cachedLoadData provider [] ticker t0).2.1 ∧
    (cachedLoadData provider
        (cachedLoadData provider (cachedLoadData provider [] ticker t0).2.1 ticker t1).2.1
        ticker t2).2.2 = true := by
  have h1 : cachedLoadData provider [] ticker t0
      = (provider ticker t0, [⟨ticker, provider ticker t0, t0⟩], true) := by
    simp [cachedLoadData]
  have hfind1 : ([⟨ticker, provider ticker t0, t0⟩] : List CacheEntry).find?
      (fun e => e.key == ticker && cacheFresh t1 e.storedAt)
      = some ⟨ticker, provider ticker t0, t0⟩ := by
    refine List.find?_cons_of_pos _ ?_
    simp [cacheFresh, hfresh]
  have h2 : cachedLoadData provider [⟨ticker, provider ticker t0, t0⟩] ticker t1
      = (provider ticker t0, [⟨ticker, provider ticker t0, t0⟩], false) := by
    simp [cachedLoadData, hfind1]
  have hstale : cacheFresh t2 t0 = false := by
    simp only [cacheFresh, decide_eq_false_iff_not, Nat.not_lt]
    omega
  have hfind3 : ([⟨ticker, provider ticker t0, t0⟩] : List CacheEntry).find?
      (fun e => e.key == ticker && cacheFresh t2 e.storedAt) = none := by
    refine List.find?_cons_of_neg _ ?_
    simp [hstale]
  have h3 : (cachedLoadData provider [⟨ticker, provider ticker t0, t0⟩] ticker t2).2.2
      = true := by
    simp [cachedLoadData, hfind3]
  refine ⟨?_, ?_, ?_, ?_, ?_⟩ <;> simp [h1, h2, h3]

/-- A provider whose returned series depends on the call time, so a
refetch after expiry can observe different data. -/
def providerW : String → Nat → Option (List RawRow) :=
  fun _ t => some [⟨t, none, 100⟩]

/-- C9 witness: a cold fetch of AAPL at time 0, a cache hit at time 10,
and a provider re-query at time 3600. -/
theorem cache_freshness_spec_witness :
    (cachedLoadData providerW [] "AAPL" 0).2.2 = true ∧
    (cachedLoadData providerW (cachedLoadData providerW [] "AAPL" 0).2.1 "AAPL" 10).1
      = (cachedLoadData providerW [] "AAPL" 0).1 ∧
    (cachedLoadData providerW (cachedLoadData providerW [] "AAPL" 0).2.1 "AAPL" 10).2.2
      = false ∧
    (cachedLoadData providerW (cachedLoadData providerW [] "AAPL" 0).2.1 "AAPL" 10).2.1
      = (cachedLoadData providerW [] "AAPL" 0).2.1 ∧
    (cachedLoadData providerW
        (cachedLoadData providerW (cachedLoadData providerW [] "AAPL" 0).2.1 "AAPL" 10).2.1
        "AAPL" 3600).2.2 = true :=
  cache_freshness_spec providerW "AAPL" 0 10 3600
    (by decide) (by decide) (by decide)

/-! ### C10 -/

/-- C10: one run of the analysis block — filter, gate, fit, summary,
export — returns the cache state it was given: nothing the run computes
is written back, so the series memoized for any ticker is the same
before and after the run. -/
theorem run_preserves_cached_series
    (fit : List (Nat × ℚ) → Option (List ForecastRow))
    (st : List CacheEntry) (full_df : List PricePoint)
    (start_date horizon : Nat) (ticker : String) :
    (runAnalysisBlock fit st full_df start_date horizon).2 = st ∧
    seriesInCache (runAnalysisBlock fit st full_df start_date horizon).2 ticker
      = seriesInCache st ticker :=
  ⟨rfl, rfl⟩
